import Mathlib

/-!
Verification of the `Actyx/actor` tokio backend (`src/tokio.rs`).

The file shallowly embeds the mailbox built by `TokioMailbox::make_mailbox`
(a tokio unbounded mpsc channel: an unbounded FIFO queue shared by a count
of live `ActorRef` clones, i.e. sender handles, and one receiver),
the `tell` closure `|msg| { let _ = tx.send(msg); }`, the
`TokioReceiver::poll` implementation, and the continuations built by
`TokioSpawner::spawn` and `TokioRuntimeSpawner::spawn` around a join
handle's outcome.
-/

namespace ActorModel

/-- Mirrors `std::task::Poll`: a future step either yields a value or
suspends. -/
inductive Poll (α : Type) where
  | Ready : α → Poll α
  | Pending : Poll α
  deriving Repr, DecidableEq

/-- Mirrors `tokio::task::JoinError`: why a spawned task failed to run to
completion (it was cancelled/aborted, or it panicked). -/
inductive JoinError where
  | cancelled : JoinError
  | panicked : JoinError
  deriving Repr, DecidableEq

/-- Model of `anyhow::Error` as it occurs in this backend: a plain message
error such as `anyhow!("channel closed")` from `TokioReceiver::poll`, a
`JoinError` converted by `err.into()` in the spawners, or the library's
`NoActorRef` condition. `NoActorRef` is modelled from the spec: the core
crate root that declares it is not among the backend sources; the spec calls
it the "no sender remains" / NoSender terminal condition. -/
inductive AnyError where
  | text : String → AnyError
  | fromJoin : JoinError → AnyError
  | noActorRef : AnyError
  deriving Repr, DecidableEq

/-- State of one mailbox made by `TokioMailbox::make_mailbox`: the buffered
messages of the unbounded mpsc channel in FIFO order, the number of live
sender handles (the original `ActorRef` plus clones; tokio closes the
channel when this count reaches zero), and whether the receiving half is
still alive (tokio's `UnboundedSender::send` fails, and the message is
dropped, once the receiver is gone). -/
structure MailboxState (M : Type) where
  queue : List M
  senders : Nat
  receiverAlive : Bool
  deriving Repr, DecidableEq

variable {M : Type}

/-- `TokioMailbox::make_mailbox`: `mpsc::unbounded_channel` yields a fresh,
empty, open queue; exactly one `ActorRef` (sender) and one receiver are
returned. -/
def make_mailbox (M : Type) : MailboxState M :=
  { queue := [], senders := 1, receiverAlive := true }

/-- The delivery closure wrapped by the returned `ActorRef`:
`|msg| { let _ = tx.send(msg); }`. `UnboundedSender::send` enqueues the
message when the receiver is still alive and otherwise returns `Err(msg)`,
which the closure discards. The `Poll Unit` in the result records that the
closure body contains no await point: it always completes with
`Poll.Ready ()` in a single step. -/
def tell (s : MailboxState M) (m : M) : Poll Unit × MailboxState M :=
  (Poll.Ready (),
    if s.receiverAlive then { s with queue := s.queue ++ [m] } else s)

/-- Cloning an `ActorRef` (the `ActorRef` is a shared handle to the same
channel): one more live sender. Callable only while the handle being cloned
exists, i.e. while at least one sender is live. -/
def cloneRef (s : MailboxState M) (_h : 0 < s.senders) : MailboxState M :=
  { s with senders := s.senders + 1 }

/-- Dropping one `ActorRef` clone: one fewer live sender. -/
def dropRef (s : MailboxState M) : MailboxState M :=
  { s with senders := s.senders - 1 }

/-- Dropping the receiving half (`TokioReceiver`): subsequent sends fail
silently. -/
def dropReceiver (s : MailboxState M) : MailboxState M :=
  { s with receiverAlive := false }

/-- The mailbox is closed for the receiver once the last sender handle is
dropped: tokio's `poll_recv` then reports exhaustion after the buffer
drains. -/
def isClosed (s : MailboxState M) : Bool :=
  s.senders == 0

/-- `TokioReceiver::poll`: `poll_recv` yields the oldest buffered message
when one exists (`Poll::Ready(Some(msg)) => Poll::Ready(Ok(msg))`); with an
empty buffer it yields `None` exactly when every sender has been dropped,
mapped to `Poll::Ready(Err(anyhow!("channel closed")))`; otherwise the
receive suspends (`Poll::Pending`). -/
def poll (s : MailboxState M) : Poll (Except AnyError M) × MailboxState M :=
  match s.queue with
  | m :: rest => (Poll.Ready (Except.ok m), { s with queue := rest })
  | [] =>
    if s.senders = 0 then
      (Poll.Ready (Except.error (AnyError.text "channel closed")), s)
    else
      (Poll.Pending, s)

/-- A sequence of `tell` calls (through any clones of the mailbox's
`ActorRef`, which all share the same channel state), in call order. -/
def tellAll (s : MailboxState M) (ms : List M) : MailboxState M :=
  ms.foldl (fun t m => (tell t m).2) s

/-- `n` successive `receive` polls on the mailbox, returning the observed
outcomes in order together with the final state. -/
def receiveN : MailboxState M → Nat → List (Poll (Except AnyError M)) × MailboxState M
  | s, 0 => ([], s)
  | s, n + 1 =>
    let first := poll s
    let rest := receiveN first.2 n
    (first.1 :: rest.1, rest.2)

/-- Outcome of awaiting a tokio `JoinHandle`: `Ok(result)` with the body's
own result when the task ran to completion, `Err(JoinError)` when it could
not. -/
inductive JoinOutcome (R : Type) where
  | success : R → JoinOutcome R
  | joinError : JoinError → JoinOutcome R
  deriving Repr, DecidableEq

/-- The continuation `TokioSpawner::spawn` wraps around the join handle:
`Ok(result) => Ok(result), Err(err) => Err(err.into())`. -/
def TokioSpawner.spawn {R : Type} (o : JoinOutcome R) : Except AnyError R :=
  match o with
  | JoinOutcome.success r => Except.ok r
  | JoinOutcome.joinError e => Except.error (AnyError.fromJoin e)

/-- The continuation `TokioRuntimeSpawner::spawn` wraps around the join
handle of `self.0.spawn(fut)`: `Ok(result) => Ok(result),
Err(err) => Err(err.into())`. -/
def TokioRuntimeSpawner.spawn {R : Type} (o : JoinOutcome R) : Except AnyError R :=
  match o with
  | JoinOutcome.success r => Except.ok r
  | JoinOutcome.joinError e => Except.error (AnyError.fromJoin e)

/-- A `tell` into the first of two mailboxes, the second left untouched:
`make_mailbox` allocates a fresh channel per call, so two mailboxes share
no state. -/
def tellFst (p : MailboxState M × MailboxState M) (m : M) :
    MailboxState M × MailboxState M :=
  ((tell p.1 m).2, p.2)

/- ## Helper lemmas -/

theorem tell_alive (s : MailboxState M) (m : M) (h : s.receiverAlive = true) :
    tell s m = (Poll.Ready (), { s with queue := s.queue ++ [m] }) := by
  simp [tell, h]

theorem tellAll_alive (ms : List M) (s : MailboxState M)
    (h : s.receiverAlive = true) :
    tellAll s ms = { s with queue := s.queue ++ ms } := by
  induction ms generalizing s with
  | nil => simp [tellAll]
  | cons m ms ih =>
    have hstep : (tell s m).2 = { s with queue := s.queue ++ [m] } := by
      simp [tell, h]
    have halive : ({ s with queue := s.queue ++ [m] } : MailboxState M).receiverAlive = true := h
    calc tellAll s (m :: ms)
        = tellAll (tell s m).2 ms := rfl
      _ = tellAll { s with queue := s.queue ++ [m] } ms := by rw [hstep]
      _ = { s with queue := (s.queue ++ [m]) ++ ms } := ih _ halive
      _ = { s with queue := s.queue ++ (m :: ms) } := by
            simp

theorem receiveN_drain (ms rest : List M) (s : MailboxState M)
    (h : s.queue = ms ++ rest) :
    receiveN s ms.length =
      (ms.map (fun m => Poll.Ready (Except.ok m)), { s with queue := rest }) := by
  induction ms generalizing s with
  | nil =>
    simp at h
    simp [receiveN, ← h]
  | cons m ms ih =>
    have hpoll : poll s = (Poll.Ready (Except.ok m), { s with queue := ms ++ rest }) := by
      simp [poll, h]
    have hnext := ih ({ s with queue := ms ++ rest }) rfl
    simp [receiveN, hpoll, hnext]

/- ## Claim theorems -/

/-- C1: once a mailbox's queue is empty and every `ActorRef` bound to it has
been dropped, every `receive` poll — the first and all subsequent ones —
resolves with the terminal "channel closed" failure, leaving the state
unchanged: it never suspends and never yields a message. -/
theorem receive_terminal_after_close (s : MailboxState M)
    (hq : s.queue = []) (hs : s.senders = 0) (n : Nat) :
    receiveN s n =
      (List.replicate n
        (Poll.Ready (Except.error (AnyError.text "channel closed"))), s) := by
  have hpoll :
      poll s = (Poll.Ready (Except.error (AnyError.text "channel closed")), s) := by
    simp [poll, hq, hs]
  induction n with
  | zero => simp [receiveN]
  | succ n ih => simp [receiveN, hpoll, ih, List.replicate_succ]

theorem receive_terminal_after_close_witness :
    receiveN (MailboxState.mk ([] : List Nat) 0 true) 2 =
      (List.replicate 2
        (Poll.Ready (Except.error (AnyError.text "channel closed"))),
        MailboxState.mk [] 0 true) :=
  receive_terminal_after_close (MailboxState.mk [] 0 true) rfl rfl 2

/-- C2: all messages told (through any clones of the mailbox's `ActorRef`,
which share one channel) before any are consumed are yielded by successive
`receive` polls exactly in the order the `tell` calls occurred. -/
theorem tell_receive_fifo (s : MailboxState M) (ms : List M)
    (hq : s.queue = []) (ha : s.receiverAlive = true) :
    receiveN (tellAll s ms) ms.length =
      (ms.map (fun m => Poll.Ready (Except.ok m)), { s with queue := [] }) := by
  have h1 : tellAll s ms = { s with queue := ms } := by
    rw [tellAll_alive ms s ha, hq]
    simp
  rw [h1]
  simpa using receiveN_drain ms [] ({ s with queue := ms }) (by simp)

theorem tell_receive_fifo_witness :
    receiveN (tellAll (make_mailbox Nat) [1, 2, 3]) 3 =
      ([Poll.Ready (Except.ok 1), Poll.Ready (Except.ok 2),
        Poll.Ready (Except.ok 3)], make_mailbox Nat) := by
  simpa using tell_receive_fifo (make_mailbox Nat) [1, 2, 3] rfl rfl

/-- C3: a mailbox is open at creation and stays open while a sender is
live; once closed (last `ActorRef` dropped), `tell`, `receive` and dropping
a reference leave it closed, and no live `ActorRef` remains whose cloning
could reopen it (cloning requires a live sender handle). -/
theorem closed_monotone (s : MailboxState M) (m : M)
    (h : isClosed s = true) :
    isClosed (make_mailbox M) = false ∧
    (∀ t : MailboxState M, 0 < t.senders → isClosed t = false) ∧
    isClosed (tell s m).2 = true ∧
    isClosed (poll s).2 = true ∧
    isClosed (dropRef s) = true ∧
    ¬ 0 < s.senders := by
  have hs : s.senders = 0 := by simpa [isClosed] using h
  refine ⟨by simp [isClosed, make_mailbox], ?_, ?_, ?_, ?_, ?_⟩
  · intro t ht
    simp [isClosed]
    omega
  · simp only [tell, isClosed]
    split <;> simp [hs]
  · cases hq : s.queue <;> simp [poll, isClosed, hs, hq]
  · simp [dropRef, isClosed, hs]
  · omega

theorem closed_monotone_witness :
    isClosed ((tell (MailboxState.mk [5] 0 true) 7).2) = true :=
  (closed_monotone (MailboxState.mk [5] 0 true) 7 (by decide)).2.2.1

/-- C4: messages enqueued before the mailbox closed are all yielded, in
order, before `receive` first reports the terminal closure failure; closure
loses no enqueued message. -/
theorem drain_before_close (s : MailboxState M) (ms : List M)
    (hq : s.queue = ms) (hs : s.senders = 0) :
    (receiveN s ms.length).1 = ms.map (fun m => Poll.Ready (Except.ok m)) ∧
    (poll (receiveN s ms.length).2).1 =
      Poll.Ready (Except.error (AnyError.text "channel closed")) := by
  have h := receiveN_drain ms [] s (by simpa using hq)
  refine ⟨by rw [h], ?_⟩
  rw [h]
  simp [poll, hs]

theorem drain_before_close_witness :
    (receiveN (MailboxState.mk [4, 6] 0 true) 2).1 =
      [Poll.Ready (Except.ok 4), Poll.Ready (Except.ok 6)] ∧
    (poll (receiveN (MailboxState.mk [4, 6] 0 true) 2).2).1 =
      Poll.Ready (Except.error (AnyError.text "channel closed")) := by
  simpa using drain_before_close (MailboxState.mk [4, 6] 0 true) [4, 6] rfl rfl

/-- C5: `tell` on a mailbox that is closed for senders (its receiving half
is gone, so `UnboundedSender::send` fails and the closure discards the
error) returns unit immediately, leaves the state entirely unchanged — so
the mailbox is not reopened — and the message is dropped: every sequence of
subsequent `receive` polls observes exactly what it would have without the
`tell`. -/
theorem tell_closed_noop (s : MailboxState M) (m : M)
    (h : s.receiverAlive = false) :
    tell s m = (Poll.Ready (), s) ∧
    ∀ n : Nat, receiveN (tell s m).2 n = receiveN s n := by
  have h2 : tell s m = (Poll.Ready (), s) := by simp [tell, h]
  exact ⟨h2, fun n => by rw [h2]⟩

theorem tell_closed_noop_witness :
    tell (MailboxState.mk ([] : List Nat) 1 false) 9 =
      (Poll.Ready (), MailboxState.mk [] 1 false) ∧
    receiveN (tell (MailboxState.mk ([] : List Nat) 1 false) 9).2 1 =
      receiveN (MailboxState.mk [] 1 false) 1 :=
  ⟨(tell_closed_noop (MailboxState.mk [] 1 false) 9 rfl).1,
    (tell_closed_noop (MailboxState.mk [] 1 false) 9 rfl).2 1⟩

/-- C6: when the spawned task could not run to completion, the completion
future built by `TokioSpawner::spawn` resolves to the execution-failure
outcome `Err(err.into())`, which is never equal to any outcome of a body
that did run — in particular never to a body failure `Ok(Err(..))`. -/
theorem spawn_execution_failure_distinct (V : Type) (e : JoinError)
    (b : Except AnyError V) :
    TokioSpawner.spawn (JoinOutcome.joinError e : JoinOutcome (Except AnyError V)) =
      Except.error (AnyError.fromJoin e) ∧
    TokioSpawner.spawn (JoinOutcome.joinError e : JoinOutcome (Except AnyError V)) ≠
      TokioSpawner.spawn (JoinOutcome.success b) :=
  ⟨rfl, by simp [TokioSpawner.spawn]⟩

/-- C7: a body that runs to completion with result `r` makes the completion
future resolve to success carrying exactly `r`; a successful body value is
distinct from a NoSender-triggered body failure and from the
execution-failure outcome. -/
theorem spawn_success_exact (R : Type) (r : R) (V : Type) (v : V)
    (e : JoinError) :
    TokioSpawner.spawn (JoinOutcome.success r) = Except.ok r ∧
    TokioSpawner.spawn
        (JoinOutcome.success (Except.ok v : Except AnyError V)) ≠
      TokioSpawner.spawn
        (JoinOutcome.success (Except.error AnyError.noActorRef : Except AnyError V)) ∧
    TokioSpawner.spawn
        (JoinOutcome.success (Except.ok v : Except AnyError V)) ≠
      TokioSpawner.spawn (JoinOutcome.joinError e : JoinOutcome (Except AnyError V)) :=
  ⟨rfl, by simp [TokioSpawner.spawn], by simp [TokioSpawner.spawn]⟩

/-- C8: `tell` is a total function whose step always completes immediately
with `Poll.Ready ()` — it never suspends (`Poll.Pending`), whatever the
mailbox state (open or closed) and message. -/
theorem tell_synchronous (s : MailboxState M) (m : M) :
    (tell s m).1 = Poll.Ready () ∧ (tell s m).1 ≠ Poll.Pending :=
  ⟨rfl, by simp [tell]⟩

/-- C9: `make_mailbox` always yields a fresh empty, open queue with exactly
one sender handle and a live receiver, and distinct mailboxes share no
state: a `tell` into one mailbox of a pair leaves the other mailbox — and
every `receive` outcome on it — unchanged. -/
theorem make_mailbox_fresh_independent (a b : MailboxState M) (m : M) :
    (make_mailbox M).queue = [] ∧
    (make_mailbox M).senders = 1 ∧
    (make_mailbox M).receiverAlive = true ∧
    isClosed (make_mailbox M) = false ∧
    (tellFst (a, b) m).2 = b ∧
    poll (tellFst (a, b) m).2 = poll b :=
  ⟨rfl, rfl, rfl, by simp [isClosed, make_mailbox], rfl, rfl⟩

/-- C10: `TokioSpawner::spawn` and `TokioRuntimeSpawner::spawn` transform
the join outcome of the spawned task identically, so for the same task
outcome the two completion futures resolve to the same value. -/
theorem spawners_equivalent (R : Type) (o : JoinOutcome R) :
    TokioSpawner.spawn o = TokioRuntimeSpawner.spawn o := by
  cases o <;> rfl

end ActorModel
